import Mathlib

/-!
Shallow embedding of `sms.py` (IteadSIM800): the AT-command protocol engine,
the response parser and the device API, together with proofs of the spec
claims.  Transports are modelled as the trimmed text lines the serial port
would deliver for each read (`Nat → List String` indexed by attempt, or a
plain `List String` for single-read exchanges); writes are counted in the
result where a claim talks about them.  Python exceptions are modelled with
`Except`; Python `None` with `Option`.
-/

namespace SIM800

/-- The whitespace characters recognised by Python's `str.strip` /
`str.isspace` (restricted to the one-byte range that can occur on the
serial line). -/
def pyIsWsChar (c : Char) : Bool :=
  c = ' ' || c = '\t' || c = '\n' || c = '\r' || c = '\x0b' || c = '\x0c'

/-- Python `str.strip()`: drop leading and trailing whitespace. -/
def pyStrip (s : String) : String :=
  ⟨((s.data.dropWhile pyIsWsChar).reverse.dropWhile pyIsWsChar).reverse⟩

/-- Python `str.isspace()`: true iff the string is nonempty and every
character is whitespace. -/
def pyIsSpace (s : String) : Bool :=
  !s.data.isEmpty && s.data.all pyIsWsChar

/-- Python `str.startswith(b)`. -/
def pyStartsWith (s b : String) : Bool :=
  b.data.isPrefixOf s.data

/-- Scanner for Python `str.replace(pat, "")`: remove every non-overlapping
occurrence of `pat`, scanning left to right.  Fuel-based structural
recursion; any fuel of at least the length of the scanned list computes the
replacement (each step consumes at least one character). -/
def removeAllFuel (pat : List Char) : Nat → List Char → List Char
  | 0, s => s
  | _ + 1, [] => []
  | fuel + 1, c :: cs =>
    if pat.isPrefixOf (c :: cs) then removeAllFuel pat fuel (cs.drop (pat.length - 1))
    else c :: removeAllFuel pat fuel cs

/-- Python `s.replace(pat, "")`.  An empty pattern with an empty replacement
leaves `s` unchanged in Python, which the guard reproduces. -/
def pyRemoveAll (s pat : String) : String :=
  if pat.data.isEmpty then s else ⟨removeAllFuel pat.data s.data.length s.data⟩

/-- Scanner for Python `s.split(sep)` with a non-empty separator: `acc`
holds the characters of the current token in reverse. -/
def pySplitAux (sep : List Char) : Nat → List Char → List Char → List (List Char)
  | 0, acc, rest => [acc.reverse ++ rest]
  | _ + 1, acc, [] => [acc.reverse]
  | fuel + 1, acc, c :: cs =>
    if sep.isPrefixOf (c :: cs) then
      acc.reverse :: pySplitAux sep fuel [] (cs.drop (sep.length - 1))
    else pySplitAux sep fuel (c :: acc) cs

/-- Python `s.split(sep)`.  Python raises `ValueError` on an empty
separator; no call site in the source passes one, and the model returns
`[s]` in that unreachable case. -/
def pySplit (s sep : String) : List String :=
  if sep.data.isEmpty then [s]
  else (pySplitAux sep.data (s.data.length + 1) [] s.data).map fun l => ⟨l⟩

/-- Digit tail of a Python decimal integer literal: digits, with single
underscores allowed between digits (Python `int("1_0") = 10`). -/
def pyDigitsAux (acc : Nat) : List Char → Option Nat
  | [] => some acc
  | c :: cs =>
    if c = '_' then
      match cs with
      | c2 :: cs2 =>
        if c2.isDigit then pyDigitsAux (acc * 10 + (c2.toNat - 48)) cs2 else none
      | [] => none
    else if c.isDigit then pyDigitsAux (acc * 10 + (c.toNat - 48)) cs
    else none

/-- A nonempty run of digits (with interior underscores), as used by
Python `int`. -/
def pyDigits : List Char → Option Nat
  | c :: cs => if c.isDigit then pyDigitsAux (c.toNat - 48) cs else none
  | [] => none

/-- Python `int(s)` on a string: surrounding whitespace is stripped, an
optional sign is consumed, the rest must be a digit run; anything else
raises `ValueError` (modelled as `none`). -/
def pyInt (s : String) : Option Int :=
  match (pyStrip s).data with
  | '+' :: cs => (pyDigits cs).map fun n => (n : Int)
  | '-' :: cs => (pyDigits cs).map fun n => -(n : Int)
  | cs => (pyDigits cs).map fun n => (n : Int)

/-- Enum `ATResp` from sms.py: classification of one command exchange. -/
inductive ATResp
  | ErrorNoResponse
  | ErrorDifferentResponse
  | OK
deriving DecidableEq

/-- Enum `RSSI` from sms.py: signal strength in bars. -/
inductive RSSI
  | ZeroBars
  | OneBar
  | TwoBars
  | ThreeBars
  | FourBars
deriving DecidableEq

/-- Enum `NetworkStatus` from sms.py: the CREG registration states 0..5. -/
inductive NetworkStatus
  | NotRegistered
  | RegisteredHome
  | Searching
  | Denied
  | Unknown
  | RegisteredRoaming
deriving DecidableEq

/-- The Python exceptions the modelled code paths can raise. -/
inductive PyError
  | valueError
  | nameError
deriving DecidableEq

instance {ε α : Type} [DecidableEq ε] [DecidableEq α] : DecidableEq (Except ε α) := fun a b =>
  match a, b with
  | Except.error e1, Except.error e2 => decidable_of_iff (e1 = e2) (by simp)
  | Except.error _, Except.ok _ => Decidable.isFalse (by simp)
  | Except.ok _, Except.error _ => Decidable.isFalse (by simp)
  | Except.ok a1, Except.ok a2 => decidable_of_iff (a1 = a2) (by simp)

/-- Function `RSSI.fromCSQ` from sms.py, lines 40-47: the if/elif chain over the raw
CSQ integer.  Falling off the end of the Python function returns `None`,
modelled as `none`. -/
def RSSI.fromCSQ (csq : Int) : Option RSSI :=
  if csq = 99 then some RSSI.ZeroBars
  else if csq = 0 then some RSSI.OneBar
  else if csq = 1 then some RSSI.TwoBars
  else if 2 ≤ csq ∧ csq ≤ 30 then some RSSI.ThreeBars
  else if csq = 31 then some RSSI.FourBars
  else none

/-- The Python `NetworkStatus(n)` IntEnum constructor: defined on 0..5,
raises `ValueError` (modelled as `none`) on any other integer. -/
def NetworkStatus.ofInt (n : Int) : Option NetworkStatus :=
  if n = 0 then some NetworkStatus.NotRegistered
  else if n = 1 then some NetworkStatus.RegisteredHome
  else if n = 2 then some NetworkStatus.Searching
  else if n = 3 then some NetworkStatus.Denied
  else if n = 4 then some NetworkStatus.Unknown
  else if n = 5 then some NetworkStatus.RegisteredRoaming
  else none

/-- The line filter both exchange functions apply: keep a decoded line iff
`len(l) and not l.isspace()`. -/
def keepLine (l : String) : Bool :=
  !l.data.isEmpty && !pyIsSpace l

/-- The decode/trim/filter pipeline applied to `readlines()` output:
`lines = [l.strip() for l in lines]` then drop empty/whitespace lines. -/
def filterLines (raw : List String) : List String :=
  (raw.map pyStrip).filter keepLine

/-- The attempt loop of `sendATCmdWaitResp` (sms.py lines 104-120): `t i`
is what `readlines()` yields on attempt `i`; the second component counts
the writes of `cmd + CR` performed.  An attempt whose filtered line list is
empty, or whose last line is blank, falls through to the next attempt;
otherwise the last line is compared with the expected response and the
loop returns immediately. -/
def sendAttempts (t : Nat → List String) (response : String) : Nat → Nat → ATResp × Nat
  | _, 0 => (ATResp.ErrorNoResponse, 0)
  | i, k + 1 =>
    let lines := filterLines (t i)
    if lines.isEmpty then
      let r := sendAttempts t response (i + 1) k
      (r.1, r.2 + 1)
    else
      let line := lines.getLastD ""
      if line.length = 0 ∨ pyIsSpace line = true then
        let r := sendAttempts t response (i + 1) k
        (r.1, r.2 + 1)
      else if line = response then (ATResp.OK, 1)
      else (ATResp.ErrorDifferentResponse, 1)

/-- Function `sendATCmdWaitResp` (sms.py lines 95-120) reduced to its observable
behaviour over the transport: classification of the exchange plus the
number of writes performed. -/
def sendATCmdWaitRespCore (t : Nat → List String) (response : String) (attempts : Nat) :
    ATResp × Nat :=
  sendAttempts t response 0 attempts

/-- The mutable state of an `SMS` object that `sendATCmdWaitResp` can see:
the configured port and baud rate, the `_ready` flag, and the two serial
timeouts it assigns at entry. -/
structure Session where
  port : String
  baud : Nat
  ready : Bool
  timeout : Rat
  interByteTimeout : Rat
deriving DecidableEq

/-- Function `sendATCmdWaitResp` with its session-state effect made explicit: the
function assigns `self._serial.timeout` and `self._serial.inter_byte_timeout`
from its arguments before the attempt loop and touches no other field. -/
def sendATCmdWaitResp (st : Session) (t : Nat → List String) (response : String)
    (timeout interByteTimeout : Rat) (attempts : Nat) : (ATResp × Nat) × Session :=
  let st1 := { st with timeout := timeout, interByteTimeout := interByteTimeout }
  (sendATCmdWaitRespCore t response attempts, st1)

/-- Function `sendATCmdWaitReturnResp` (sms.py lines 122-143): single attempt; the
last filtered line is popped as the terminal line, the remainder is the
payload, returned only on a match. -/
def sendATCmdWaitReturnResp (raw : List String) (response : String) :
    ATResp × Option (List String) :=
  let lines := filterLines raw
  if lines.isEmpty then (ATResp.ErrorNoResponse, none)
  else
    let respLine := lines.getLastD ""
    let payload := lines.dropLast
    if respLine.length = 0 ∨ pyIsSpace respLine = true then (ATResp.ErrorNoResponse, none)
    else if response = respLine then (ATResp.OK, some payload)
    else (ATResp.ErrorDifferentResponse, none)

/-- Function `parseReply` (sms.py lines 145-156): check the line starts with
`beginning`, strip `beginning` with `str.replace` (which removes every
occurrence), split by `divider`, and index into the pieces, catching
`IndexError`. -/
def parseReply (data beginning : String) (divider : String) (index : Nat) :
    Bool × Option String :=
  if pyStartsWith data beginning = false then (false, none)
  else
    let d := pyRemoveAll data beginning
    let parts := pySplit d divider
    match parts[index]? with
    | some tok => (true, some tok)
    | none => (false, none)

/-- Function `getSingleResponse` (sms.py lines 158-168): run the multi-line
exchange, require `OK` status and exactly one payload line, then parse it. -/
def getSingleResponse (raw : List String) (response beginning : String)
    (divider : String) (index : Nat) : Option String :=
  let res := sendATCmdWaitReturnResp raw response
  if res.1 ≠ ATResp.OK then none
  else
    match res.2 with
    | none => none
    | some ls =>
      if ls.length ≠ 1 then none
      else
        let p := parseReply (ls.getD 0 "") beginning divider index
        if p.1 then p.2 else none

/-- Observable outcome of `turnOn`: the returned boolean, the `_ready`
flag, and how many times `reset()` ran. -/
structure TurnOnOut where
  result : Bool
  ready : Bool
  resets : Nat
deriving DecidableEq

/-- The `for i in range(2)` loop of `turnOn` (sms.py lines 176-187).
`ct i` is the transport behaviour seen by the `AT`/`OK` exchange of outer
cycle `i` (attempt-indexed); `reset()` runs when that exchange yields
`ErrorNoResponse` on cycle 0. -/
def turnOnLoop (ct : Nat → Nat → List String) : Nat → Nat → Bool → Nat → TurnOnOut
  | _, 0, ready, resets => ⟨false, ready, resets⟩
  | i, fuel + 1, ready, resets =>
    match (sendATCmdWaitRespCore (ct i) "OK" 5).1 with
    | ATResp.OK => ⟨true, true, resets⟩
    | ATResp.ErrorDifferentResponse => turnOnLoop ct (i + 1) fuel ready resets
    | ATResp.ErrorNoResponse =>
      if i = 0 then turnOnLoop ct (i + 1) fuel ready (resets + 1)
      else turnOnLoop ct (i + 1) fuel ready resets

/-- Function `turnOn` (sms.py lines 170-188), starting from a fresh session
(`_ready = False`, no resets yet). -/
def turnOn (ct : Nat → Nat → List String) : TurnOnOut :=
  turnOnLoop ct 0 2 false 0

/-- A decimal digit as a character (callers only pass 0..9). -/
def digitChar (n : Nat) : Char :=
  if n = 1 then '1'
  else if n = 2 then '2'
  else if n = 3 then '3'
  else if n = 4 then '4'
  else if n = 5 then '5'
  else if n = 6 then '6'
  else if n = 7 then '7'
  else if n = 8 then '8'
  else if n = 9 then '9'
  else '0'

/-- A value below 100 printed as exactly two digits, as the zero-padding
`strftime` conversions `%y %m %d %H %M %S` produce. -/
def pad2Chars (n : Nat) : List Char :=
  [digitChar (n / 10), digitChar (n % 10)]

/-- A Python `datetime.datetime` value (date and time fields; `microsecond`
is carried so that truncation by the whole-second clock format is
observable). -/
structure PyDateTime where
  year : Nat
  month : Nat
  day : Nat
  hour : Nat
  minute : Nat
  second : Nat
  microsecond : Nat
deriving DecidableEq

/-- Gregorian leap year rule. -/
def isLeap (y : Nat) : Bool :=
  (y % 4 == 0 && y % 100 != 0) || y % 400 == 0

/-- Days in a month of the proleptic Gregorian calendar. -/
def daysInMonth (y m : Nat) : Nat :=
  if m = 2 then (if isLeap y then 29 else 28)
  else if m = 4 || m = 6 || m = 9 || m = 11 then 30
  else 31

/-- The invariant Python's `datetime` constructor enforces on its fields. -/
def validDateTime (t : PyDateTime) : Prop :=
  1 ≤ t.year ∧ t.year ≤ 9999 ∧ 1 ≤ t.month ∧ t.month ≤ 12 ∧
  1 ≤ t.day ∧ t.day ≤ daysInMonth t.year t.month ∧
  t.hour ≤ 23 ∧ t.minute ≤ 59 ∧ t.second ≤ 59 ∧ t.microsecond ≤ 999999

instance (t : PyDateTime) : Decidable (validDateTime t) := by
  unfold validDateTime; infer_instance

/-- The characters of `datetime.strftime(time, DATE_FMT)` with
`DATE_FMT = '"%y/%m/%d,%H:%M:%S+00"'` (sms.py line 11): a double-quoted
`YY/MM/DD,HH:MM:SS+00` string with zero-padded two-digit fields, `%y`
printing `year % 100`. -/
def strftimeData (t : PyDateTime) : List Char :=
  '"' :: pad2Chars (t.year % 100) ++
  '/' :: pad2Chars t.month ++
  '/' :: pad2Chars t.day ++
  ',' :: pad2Chars t.hour ++
  ':' :: pad2Chars t.minute ++
  ':' :: pad2Chars t.second ++
  ['+', '0', '0', '"']

/-- Python `datetime.strftime(time, DATE_FMT)` as a string. -/
def strftimeCCLK (t : PyDateTime) : String :=
  ⟨strftimeData t⟩

/-- Read exactly two digits, as the `strptime` conversions of the fixed
two-digit format `"YY/MM/DD,HH:MM:SS+00"` consume. -/
def parse2 : List Char → Option (Nat × List Char)
  | c1 :: c2 :: rest =>
    if c1.isDigit && c2.isDigit then
      some ((c1.toNat - 48) * 10 + (c2.toNat - 48), rest)
    else none
  | _ => none

/-- Consume one expected literal character of the format. -/
def expectChar (c : Char) : List Char → Option (List Char)
  | d :: rest => if d = c then some rest else none
  | [] => none

/-- Read a two-digit field followed by an expected separator character:
one `%y/`-style step of the fixed clock format. -/
def parse2Sep (c : Char) (r : List Char) : Option (Nat × List Char) :=
  match parse2 r with
  | none => none
  | some (n, r1) =>
    match expectChar c r1 with
    | none => none
    | some r2 => some (n, r2)

/-- The `%y/%m/%d,` part of the clock format (after the opening quote). -/
def strptimeDate (r : List Char) : Option (Nat × Nat × Nat × List Char) :=
  match parse2Sep '/' r with
  | none => none
  | some (yy, r1) =>
    match parse2Sep '/' r1 with
    | none => none
    | some (mm, r2) =>
      match parse2Sep ',' r2 with
      | none => none
      | some (dd, r3) => some (yy, mm, dd, r3)

/-- The `%H:%M:%S` part of the clock format, followed by the literal tail
`+00"` and end of input. -/
def strptimeTime (r : List Char) : Option (Nat × Nat × Nat) :=
  match parse2Sep ':' r with
  | none => none
  | some (hh, r1) =>
    match parse2Sep ':' r1 with
    | none => none
    | some (mi, r2) =>
      match parse2 r2 with
      | none => none
      | some (ss, r3) =>
        match r3 with
        | ['+', '0', '0', '"'] => some (hh, mi, ss)
        | _ => none

/-- Python `datetime.strptime(s, DATE_FMT)`: parse the quoted fixed-format clock
string; any mismatch, trailing garbage, or field outside the ranges the
`datetime` constructor accepts raises `ValueError` (modelled as `none`).
`%y` maps the two-digit year to 2000-2068 / 1969-1999 (POSIX rule). -/
def strptimeCCLK (s : String) : Option PyDateTime :=
  match expectChar '"' s.data with
  | none => none
  | some r0 =>
    match strptimeDate r0 with
    | none => none
    | some (yy, mm, dd, r3) =>
      match strptimeTime r3 with
      | none => none
      | some (hh, mi, ss) =>
        let year := if yy ≤ 68 then 2000 + yy else 1900 + yy
        if 1 ≤ mm ∧ mm ≤ 12 ∧ 1 ≤ dd ∧ dd ≤ daysInMonth year mm ∧
            hh ≤ 23 ∧ mi ≤ 59 ∧ ss ≤ 59 then
          some ⟨year, mm, dd, hh, mi, ss, 0⟩
        else none

/-- The single-quote divider `"'"` passed by `getTime`. -/
def quoteDivider : String :=
  ⟨['\x27']⟩

/-- Function `setTime` (sms.py lines 265-271) over a transport: format the
timestamp with `DATE_FMT` and issue `AT+CCLK=<formatted>` expecting `OK`. -/
def setTime (t : Nat → List String) (time : PyDateTime) : Bool :=
  let _formatted := strftimeCCLK time
  decide ((sendATCmdWaitRespCore t "OK" 1).1 = ATResp.OK)

/-- Function `getTime` (sms.py lines 256-263): extract the `+CCLK: ` field and feed
it to `strptime`; a reply that fails to extract returns `None`, but a
field that fails to parse raises `ValueError` (there is no try/except). -/
def getTime (raw : List String) : Except PyError (Option PyDateTime) :=
  match getSingleResponse raw "OK" "+CCLK: " quoteDivider 0 with
  | none => Except.ok none
  | some s =>
    match strptimeCCLK s with
    | none => Except.error PyError.valueError
    | some d => Except.ok (some d)

/-- Function `getNetworkStatus` (sms.py lines 233-240): extract field 1 of the
`+CREG: ` reply and apply `NetworkStatus(int(status))`; a reply that fails
to extract returns `None`, but a non-integer field or an integer outside
0..5 raises `ValueError` (there is no try/except). -/
def getNetworkStatus (raw : List String) : Except PyError (Option NetworkStatus) :=
  match getSingleResponse raw "OK" "+CREG: " "," 1 with
  | none => Except.ok none
  | some s =>
    match pyInt s with
    | none => Except.error PyError.valueError
    | some n =>
      match NetworkStatus.ofInt n with
      | none => Except.error PyError.valueError
      | some ns => Except.ok (some ns)

/-- Function `setSMSMessageFormat` (sms.py lines 273-278) over a transport:
`AT+CMGF=<format>` expecting `OK`. -/
def setSMSMessageFormat (t : Nat → List String) : Bool :=
  decide ((sendATCmdWaitRespCore t "OK" 1).1 = ATResp.OK)

/-- The Python comparison `_response == "+CMGS"` on sms.py line 292.
`_response` is the second component of `sendATCmdWaitReturnResp`: either
`None` or a *list* of payload lines.  In Python, `==` between values of
different types (list vs. str, None vs. str) is `False`, so this test is
identically false. -/
def pyPayloadEqStr (_r : Option (List String)) (_s : String) : Bool :=
  false

/-- Function `sendSMS` (sms.py lines 280-292) over the three transports seen by its
three phases (`AT+CMGF=1`, `AT+CMGS="<number>"` expecting the prompt
`"> "`, and the message payload expecting `OK`).  The final line of the
source is `return _response=="+CMGS" and status==Attempt.OK`: the left
operand is always `False` (list/None vs. str), so `and` short-circuits and
the function returns `False`; were it ever true, evaluating the undefined
name `Attempt` would raise `NameError`. -/
def sendSMS (t1 t2 : Nat → List String) (t3 : List String) : Except PyError Bool :=
  if !setSMSMessageFormat t1 then Except.ok false
  else if (sendATCmdWaitRespCore t2 "> " 1).1 ≠ ATResp.OK then Except.ok false
  else
    let r := sendATCmdWaitReturnResp t3 "OK"
    if pyPayloadEqStr r.2 "+CMGS" then Except.error PyError.nameError
    else Except.ok false

/-! ## Helper lemmas -/

lemma getLastD_mem_of_ne_nil {l : List String} (h : l ≠ []) : l.getLastD "" ∈ l := by
  rcases l with _ | ⟨a, as⟩
  · exact absurd rfl h
  · rw [List.getLastD_cons]
    exact List.getLastD_mem_cons as a

lemma keepLine_of_mem_filterLines {l : String} {raw : List String}
    (h : l ∈ filterLines raw) : keepLine l = true :=
  (List.mem_filter.mp h).2

/-- The defensive re-check of the terminal line inside the attempt loop is
dead: the last filtered line always passes the keep filter. -/
lemma lastLine_not_blank {raw : List String} (hne : filterLines raw ≠ []) :
    ¬(((filterLines raw).getLast?.getD "").length = 0 ∨
        pyIsSpace ((filterLines raw).getLast?.getD "") = true) := by
  have hmem : (filterLines raw).getLast?.getD "" ∈ filterLines raw := by
    rw [← List.getLastD_eq_getLast?]
    exact getLastD_mem_of_ne_nil hne
  have hk := keepLine_of_mem_filterLines hmem
  unfold keepLine at hk
  simp only [Bool.and_eq_true, Bool.not_eq_true'] at hk
  obtain ⟨h1, h2⟩ := hk
  rintro (hlen | hsp)
  · have hdl : ((filterLines raw).getLast?.getD "").data.length = 0 := hlen
    rcases hd : ((filterLines raw).getLast?.getD "").data with _ | ⟨c, cs⟩
    · rw [hd] at h1
      simp at h1
    · rw [hd] at hdl
      simp at hdl
  · rw [h2] at hsp
    exact Bool.false_ne_true hsp

/-! ## Claim theorems -/

/-- C5: `RSSI.fromCSQ` maps 99 to `ZeroBars`, 0 to `OneBar`, 1 to
`TwoBars`, every CSQ value in 2..30 to `ThreeBars`, and 31 to `FourBars`. -/
theorem fromCSQ_bucket_map :
    RSSI.fromCSQ 99 = some RSSI.ZeroBars ∧
    RSSI.fromCSQ 0 = some RSSI.OneBar ∧
    RSSI.fromCSQ 1 = some RSSI.TwoBars ∧
    (∀ c : Int, 2 ≤ c → c ≤ 30 → RSSI.fromCSQ c = some RSSI.ThreeBars) ∧
    RSSI.fromCSQ 31 = some RSSI.FourBars := by
  refine ⟨by decide, by decide, by decide, ?_, by decide⟩
  intro c h1 h2
  unfold RSSI.fromCSQ
  rw [if_neg (by omega), if_neg (by omega), if_neg (by omega), if_pos ⟨h1, h2⟩]

theorem fromCSQ_bucket_map_witness :
    RSSI.fromCSQ 15 = some RSSI.ThreeBars :=
  fromCSQ_bucket_map.2.2.2.1 15 (by decide) (by decide)

/-- C10: for every integer CSQ value outside `{0, ..., 31, 99}` (negative,
or greater than 31 and different from 99), `RSSI.fromCSQ` falls through all
branches and returns `None` — it neither raises nor defaults to a bar
count. -/
theorem fromCSQ_outside_none (c : Int) (h1 : c ≠ 99) (h2 : c < 0 ∨ 31 < c) :
    RSSI.fromCSQ c = none := by
  unfold RSSI.fromCSQ
  rw [if_neg h1, if_neg (by omega), if_neg (by omega), if_neg (by omega),
    if_neg (by omega)]

theorem fromCSQ_outside_none_witness :
    RSSI.fromCSQ 32 = none :=
  fromCSQ_outside_none 32 (by decide) (Or.inr (by decide))

/-- C1: `sendSMS` returns `False` for *every* transport behaviour — in
particular for the spec's success scenario (format command answered `OK`,
`AT+CMGS` answered with the prompt line `"> "`, payload answered with
payload line `+CMGS` and terminal `OK`).  Two independent slips in the
source make `True` unreachable: every received line is `strip()`ed, so no
line can ever equal the expected prompt `"> "` (the stripped prompt is
`">"`), and the final check compares the payload *list* with the string
`"+CMGS"`, which is identically false in Python. -/
theorem sendSMS_always_false :
    (∀ (t1 t2 : Nat → List String) (t3 : List String),
        sendSMS t1 t2 t3 = Except.ok false) ∧
    sendSMS (fun _ => ["OK"]) (fun _ => ["> "]) ["+CMGS", "OK"] = Except.ok false := by
  constructor
  · intro t1 t2 t3
    unfold sendSMS
    split
    · rfl
    · split
      · rfl
      · simp [pyPayloadEqStr]
  · decide

/-- C9: `sendATCmdWaitResp` assigns the serial read timeout and inter-byte
timeout from its own arguments for this call, leaves the port, baud rate
and readiness flag untouched, and its observable outcome is independent of
whatever timeouts a previous call left in the session. -/
theorem sendATCmdWaitResp_frame (st : Session) (t : Nat → List String) (response : String)
    (timeout interByteTimeout : Rat) (attempts : Nat) :
    (sendATCmdWaitResp st t response timeout interByteTimeout attempts).2.port = st.port ∧
    (sendATCmdWaitResp st t response timeout interByteTimeout attempts).2.baud = st.baud ∧
    (sendATCmdWaitResp st t response timeout interByteTimeout attempts).2.ready = st.ready ∧
    (sendATCmdWaitResp st t response timeout interByteTimeout attempts).2.timeout = timeout ∧
    (sendATCmdWaitResp st t response timeout interByteTimeout attempts).2.interByteTimeout
      = interByteTimeout ∧
    (∀ st2 : Session,
      (sendATCmdWaitResp st2 t response timeout interByteTimeout attempts).1 =
        (sendATCmdWaitResp st t response timeout interByteTimeout attempts).1) :=
  ⟨rfl, rfl, rfl, rfl, rfl, fun _ => rfl⟩

/-- C3: in `turnOn`, `reset()` runs exactly once if the first outer
cycle's `AT`/`OK` exchange (5 inner attempts) classifies as
`ErrorNoResponse` and never otherwise (in particular a `Mismatch` never
triggers a reset); the call succeeds, and marks the session ready, exactly
when one of the two outer cycles' exchanges classifies as `OK`; otherwise
it returns false with the session still not ready. -/
theorem turnOn_reset_policy (ct : Nat → Nat → List String) :
    (turnOn ct).resets =
      (if (sendATCmdWaitRespCore (ct 0) "OK" 5).1 = ATResp.ErrorNoResponse then 1 else 0) ∧
    (turnOn ct).result =
      (decide ((sendATCmdWaitRespCore (ct 0) "OK" 5).1 = ATResp.OK) ||
        decide ((sendATCmdWaitRespCore (ct 1) "OK" 5).1 = ATResp.OK)) ∧
    (turnOn ct).ready = (turnOn ct).result := by
  rcases h0 : (sendATCmdWaitRespCore (ct 0) "OK" 5).1 <;>
    rcases h1 : (sendATCmdWaitRespCore (ct 1) "OK" 5).1 <;>
      simp [turnOn, turnOnLoop, h0, h1]

/-- C7: `getSingleResponse` yields a present field exactly when the
multi-line exchange returns `OK` with exactly one payload line and
`parseReply` succeeds on that line; an exchange with any other status or
any other payload line count (zero, or two or more) yields `None`. -/
theorem getSingleResponse_characterisation (raw : List String)
    (response beginning divider : String) (index : Nat) :
    getSingleResponse raw response beginning divider index =
      match sendATCmdWaitReturnResp raw response with
      | (ATResp.OK, some [l]) =>
        (fun p => if p.1 then p.2 else none) (parseReply l beginning divider index)
      | _ => none := by
  unfold getSingleResponse
  rcases h : sendATCmdWaitReturnResp raw response with ⟨st, data⟩
  rcases st <;> rcases data with _ | ⟨_ | ⟨l, _ | ⟨l2, ls⟩⟩⟩ <;> simp [h, List.getD]

/-- C6 (amended): for every line that starts with the given prefix,
`parseReply` removes **every** occurrence of the prefix (Python
`str.replace` semantics), splits the remainder by the divider, and returns
the token at the given index; it returns absent when the line does not
start with the prefix or when the index is out of range of the token
sequence. -/
theorem parseReply_spec (data beginning divider : String) (index : Nat) :
    (pyStartsWith data beginning = false →
      parseReply data beginning divider index = (false, none)) ∧
    (pyStartsWith data beginning = true →
      parseReply data beginning divider index =
        match (pySplit (pyRemoveAll data beginning) divider)[index]? with
        | some tok => (true, some tok)
        | none => (false, none)) := by
  constructor <;> intro h <;> unfold parseReply <;> simp [h]

theorem parseReply_spec_witness :
    parseReply "+CREG: 0,1" "+CREG: " "," 1 =
      match (pySplit (pyRemoveAll "+CREG: 0,1" "+CREG: ") ",")[1]? with
      | some tok => (true, some tok)
      | none => (false, none) :=
  (parseReply_spec "+CREG: 0,1" "+CREG: " "," 1).2 (by decide)

/-- C6 counterexample: the claim says only the *leading* occurrence of the
prefix is removed.  On the line `"AB,AB"` with prefix `"AB"`, divider `","`
and index 1, the code removes **both** occurrences (`str.replace` replaces
all), splits `","` into `["", ""]` and returns `""`; removing only the
leading occurrence would leave `",AB"`, whose token at index 1 is `"AB"`. -/
theorem parseReply_all_occurrences_cex :
    parseReply "AB,AB" "AB" "," 1 = (true, some "") ∧
    (pySplit ",AB" ",")[1]? = some "AB" := by
  decide

lemma sendAttempts_all_empty (t : Nat → List String) (response : String) :
    ∀ (k i : Nat), (∀ d, d < k → filterLines (t (i + d)) = []) →
      sendAttempts t response i k = (ATResp.ErrorNoResponse, k) := by
  intro k
  induction k with
  | zero => intro i _; rfl
  | succ k ih =>
    intro i h
    have h0 : filterLines (t i) = [] := by simpa using h 0 (by omega)
    have ih2 := ih (i + 1) (fun d hd => by
      have h2 := h (d + 1) (by omega)
      rw [show i + 1 + d = i + (d + 1) from by omega]
      exact h2)
    simp [sendAttempts, h0, ih2]

lemma sendAttempts_first_nonempty (t : Nat → List String) (response : String) :
    ∀ (j k i : Nat), j < k → (∀ d, d < j → filterLines (t (i + d)) = []) →
      filterLines (t (i + j)) ≠ [] →
      sendAttempts t response i k =
        ((if (filterLines (t (i + j))).getLast?.getD "" = response then ATResp.OK
          else ATResp.ErrorDifferentResponse), j + 1) := by
  intro j
  induction j with
  | zero =>
    intro k i hk h0 hne
    rcases k with _ | k
    · omega
    rw [Nat.add_zero] at hne ⊢
    have hIE : (filterLines (t i)).isEmpty = false := by
      rcases h2 : filterLines (t i) with _ | _
      · exact absurd h2 hne
      · rfl
    have hdead := lastLine_not_blank hne
    by_cases hc : (filterLines (t i)).getLast?.getD "" = response
    · rw [hc] at hdead
      simp [sendAttempts, hIE, hdead, hc]
    · simp [sendAttempts, hIE, hdead, hc]
  | succ j ih =>
    intro k i hk h0 hne
    rcases k with _ | k
    · omega
    have h00 : filterLines (t i) = [] := by simpa using h0 0 (by omega)
    have hs : i + 1 + j = i + (j + 1) := by omega
    have ih2 := ih k (i + 1) (by omega)
      (fun d hd => by
        have h2 := h0 (d + 1) (by omega)
        rw [show i + 1 + d = i + (d + 1) from by omega]
        exact h2)
      (by rw [hs]; exact hne)
    rw [hs] at ih2
    simp [sendAttempts, h00, ih2]

/-- C2: for every attempt budget `n`, `sendATCmdWaitResp` returns
`ErrorNoResponse` only after all `n` attempts produced an empty filtered
line list, writing `cmd + CR` exactly `n` times in that case; and on the
first attempt `j` whose filtered line list is non-empty it stops
immediately after `j + 1` writes, returning `OK` if the last filtered line
equals the expected response and `ErrorDifferentResponse` otherwise. -/
theorem sendATCmdWaitResp_retry_policy (t : Nat → List String) (response : String) (n : Nat) :
    ((∀ i, i < n → filterLines (t i) = []) →
      sendATCmdWaitRespCore t response n = (ATResp.ErrorNoResponse, n)) ∧
    (∀ j, j < n → (∀ i, i < j → filterLines (t i) = []) → filterLines (t j) ≠ [] →
      sendATCmdWaitRespCore t response n =
        ((if (filterLines (t j)).getLast?.getD "" = response then ATResp.OK
          else ATResp.ErrorDifferentResponse), j + 1)) := by
  constructor
  · intro h
    exact sendAttempts_all_empty t response n 0 (fun d hd => by simpa using h d hd)
  · intro j hj h0 hne
    have h2 := sendAttempts_first_nonempty t response j n 0 hj
      (fun d hd => by simpa using h0 d hd) (by simpa using hne)
    simpa using h2

theorem sendATCmdWaitResp_retry_policy_witness :
    sendATCmdWaitRespCore (fun _ => [""]) "OK" 3 = (ATResp.ErrorNoResponse, 3) ∧
    sendATCmdWaitRespCore (fun i => if i == 1 then ["ECHO", "OK"] else []) "OK" 5
      = (ATResp.OK, 2) := by
  constructor
  · exact (sendATCmdWaitResp_retry_policy (fun _ => [""]) "OK" 3).1 (fun i _ => rfl)
  · have h := (sendATCmdWaitResp_retry_policy
      (fun i => if i == 1 then ["ECHO", "OK"] else []) "OK" 5).2 1 (by decide)
      (by decide) (by decide)
    rw [h]
    decide

/-- C4 counterexample: the claim says every query returns an absent result
on any failure — including a registration integer outside 0-5 or an
unparseable timestamp — and never propagates an exception.  On the reply
`+CREG: 0,7` (registration value 7) `getNetworkStatus` raises `ValueError`
from the `NetworkStatus(int(status))` constructor, and on the reply
`+CCLK: bad` `getTime` raises `ValueError` from `datetime.strptime`;
neither call site has a try/except. -/
theorem query_raises_cex :
    getNetworkStatus ["+CREG: 0,7", "OK"] = Except.error PyError.valueError ∧
    getTime ["+CCLK: bad", "OK"] = Except.error PyError.valueError := by
  decide

/-- C4 (amended): `getNetworkStatus` and `getTime` return an absent result
without raising whenever the protocol-level extraction fails (non-`OK`
terminal, payload line count different from one, prefix mismatch, missing
field); but when a field is extracted and is structurally malformed — a
registration field that is not an integer in 0..5, or a timestamp that
does not parse against the fixed format — they raise `ValueError` instead
of returning absent. -/
theorem query_parse_failure_behaviour
    (raw1 raw2 raw3 raw4 : List String) (s3 s4 : String)
    (h1 : getSingleResponse raw1 "OK" "+CREG: " "," 1 = none)
    (h2 : getSingleResponse raw2 "OK" "+CCLK: " quoteDivider 0 = none)
    (h3 : getSingleResponse raw3 "OK" "+CREG: " "," 1 = some s3)
    (h3b : (pyInt s3).bind NetworkStatus.ofInt = none)
    (h4 : getSingleResponse raw4 "OK" "+CCLK: " quoteDivider 0 = some s4)
    (h4b : strptimeCCLK s4 = none) :
    getNetworkStatus raw1 = Except.ok none ∧
    getTime raw2 = Except.ok none ∧
    getNetworkStatus raw3 = Except.error PyError.valueError ∧
    getTime raw4 = Except.error PyError.valueError := by
  refine ⟨?_, ?_, ?_, ?_⟩
  · simp only [getNetworkStatus, h1]
  · simp only [getTime, h2]
  · simp only [getNetworkStatus, h3]
    rcases hp : pyInt s3 with _ | n
    · simp only [hp]
    · rw [hp] at h3b
      simp only [Option.some_bind] at h3b
      simp only [hp, h3b]
  · simp only [getTime, h4, h4b]

theorem query_parse_failure_behaviour_witness :
    getNetworkStatus [] = Except.ok none ∧
    getTime [] = Except.ok none ∧
    getNetworkStatus ["+CREG: 0,7", "OK"] = Except.error PyError.valueError ∧
    getTime ["+CCLK: bad", "OK"] = Except.error PyError.valueError :=
  query_parse_failure_behaviour [] [] ["+CREG: 0,7", "OK"] ["+CCLK: bad", "OK"] "7" "bad"
    (by decide) (by decide) (by decide) (by decide) (by decide) (by decide)

lemma digitChar_isDigit (m : Nat) : (digitChar m).isDigit = true := by
  unfold digitChar
  split_ifs <;> decide

lemma digitChar_toNat {m : Nat} (h : m < 10) : (digitChar m).toNat = 48 + m := by
  have hb : ∀ k, k < 10 → (digitChar k).toNat = 48 + k := by decide
  exact hb m h

lemma expectChar_cons (c : Char) (r : List Char) : expectChar c (c :: r) = some r := by
  simp [expectChar]

lemma parse2_pad2 (n : Nat) (h : n ≤ 99) (rest : List Char) :
    parse2 (pad2Chars n ++ rest) = some (n, rest) := by
  have h1 : n / 10 < 10 := by omega
  have h2 : n % 10 < 10 := by omega
  simp only [pad2Chars, List.cons_append, List.nil_append, parse2, digitChar_isDigit,
    Bool.and_self, if_true, digitChar_toNat h1, digitChar_toNat h2]
  have : (48 + n / 10 - 48) * 10 + (48 + n % 10 - 48) = n := by omega
  rw [this]

lemma strptime_strftime (T : PyDateTime) (hv : validDateTime T)
    (hy1 : 1969 ≤ T.year) (hy2 : T.year ≤ 2068) :
    strptimeCCLK (strftimeCCLK T) = some ⟨T.year, T.month, T.day, T.hour, T.minute, T.second, 0⟩ := by
  obtain ⟨w1, w2, w3, w4, w5, w6, w7, w8, w9, w10⟩ := hv
  have hd31 : daysInMonth T.year T.month ≤ 31 := by
    unfold daysInMonth
    split_ifs <;> omega
  have p1 := parse2_pad2 (T.year % 100) (by omega)
  have p2 := parse2_pad2 T.month (by omega)
  have p3 := parse2_pad2 T.day (by omega)
  have p4 := parse2_pad2 T.hour (by omega)
  have p5 := parse2_pad2 T.minute (by omega)
  have p6 := parse2_pad2 T.second (by omega)
  have hyear : (if T.year % 100 ≤ 68 then 2000 + T.year % 100 else 1900 + T.year % 100)
      = T.year := by
    rcases le_or_lt T.year 1999 with h | h
    · rw [if_neg (by omega)]
      omega
    · rw [if_pos (by omega)]
      omega
  simp only [strptimeCCLK, strftimeCCLK, strftimeData, List.cons_append, List.append_assoc,
    expectChar_cons, strptimeDate, strptimeTime, parse2Sep, p1, p2, p3, p4, p5, p6]
  simp only [hyear, w3, w4, w5, w6, w7, w8, w9, and_true, true_and, if_true]

def cclkChars : List Char :=
  ['"', '/', ',', ':', '+', '0', '1', '2', '3', '4', '5', '6', '7', '8', '9']

lemma digitChar_mem_cclk (m : Nat) : digitChar m ∈ cclkChars := by
  unfold digitChar
  split_ifs <;> decide

lemma strftimeData_chars (T : PyDateTime) : ∀ a ∈ strftimeData T, a ∈ cclkChars := by
  intro a ha
  simp only [strftimeData, pad2Chars, List.cons_append, List.nil_append, List.mem_cons,
    List.mem_append, List.not_mem_nil, or_false] at ha
  rcases ha with rfl | rfl | rfl | rfl | rfl | rfl | rfl | rfl | rfl | rfl | rfl | rfl | rfl |
    rfl | rfl | rfl | rfl | rfl | rfl | rfl | rfl | rfl <;>
    first
      | decide
      | exact digitChar_mem_cclk _

lemma strftime_no_C (T : PyDateTime) : ∀ a ∈ (strftimeCCLK T).data, a ≠ 'C' := by
  intro a ha
  have hband : ∀ x ∈ cclkChars, x ≠ 'C' := by decide
  exact hband a (strftimeData_chars T a ha)

lemma strftime_no_quote (T : PyDateTime) : ∀ a ∈ (strftimeCCLK T).data, a ≠ '\x27' := by
  intro a ha
  have hband : ∀ x ∈ cclkChars, x ≠ '\x27' := by decide
  exact hband a (strftimeData_chars T a ha)

lemma dropWhile_head_false {p : Char → Bool} :
    ∀ {l : List Char}, (∀ c, l.head? = some c → p c = false) → l.dropWhile p = l
  | [], _ => rfl
  | a :: as, h => by simp [List.dropWhile_cons, h a rfl]

lemma pyStrip_of_ends {s : String} (h1 : ∀ c, s.data.head? = some c → pyIsWsChar c = false)
    (h2 : ∀ c, s.data.getLast? = some c → pyIsWsChar c = false) : pyStrip s = s := by
  unfold pyStrip
  rw [dropWhile_head_false h1]
  rw [dropWhile_head_false (by
    intro c hc
    exact h2 c (by rwa [List.head?_reverse] at hc))]
  rw [List.reverse_reverse]

lemma strftimeData_getLast (T : PyDateTime) : (strftimeData T).getLast? = some '"' := by
  have h : strftimeData T =
      ('"' :: pad2Chars (T.year % 100) ++ '/' :: pad2Chars T.month ++ '/' :: pad2Chars T.day ++
        ',' :: pad2Chars T.hour ++ ':' :: pad2Chars T.minute ++ ':' :: pad2Chars T.second ++
        ['+', '0', '0']) ++ ['"'] := by
    simp [strftimeData, pad2Chars]
  rw [h, List.getLast?_concat]

lemma cclkLine_data (T : PyDateTime) :
    ("+CCLK: " ++ strftimeCCLK T).data
      = '+' :: 'C' :: 'C' :: 'L' :: 'K' :: ':' :: ' ' :: (strftimeCCLK T).data := rfl

lemma cclkLine_strip (T : PyDateTime) :
    pyStrip ("+CCLK: " ++ strftimeCCLK T) = "+CCLK: " ++ strftimeCCLK T := by
  apply pyStrip_of_ends
  · intro c hc
    rw [cclkLine_data] at hc
    injection hc with h
    subst h
    decide
  · intro c hc
    rw [cclkLine_data] at hc
    have h9 : ('+' :: 'C' :: 'C' :: 'L' :: 'K' :: ':' :: ' ' :: (strftimeCCLK T).data).getLast?
        = (strftimeCCLK T).data.getLast? := by
      have hne : (strftimeCCLK T).data ≠ [] := by
        show strftimeData T ≠ []
        simp [strftimeData]
      show (['+', 'C', 'C', 'L', 'K', ':', ' '] ++ (strftimeCCLK T).data).getLast? = _
      exact List.getLast?_append_of_ne_nil _ hne
    rw [h9] at hc
    have := strftimeData_getLast T
    rw [show (strftimeCCLK T).data = strftimeData T from rfl, this] at hc
    injection hc with h
    subst h
    decide

lemma keepLine_of_head {s : String} (c : Char) (hc : s.data.head? = some c)
    (hw : pyIsWsChar c = false) : keepLine s = true := by
  unfold keepLine pyIsSpace
  rcases hd : s.data with _ | ⟨a, as⟩
  · rw [hd] at hc
    cases hc
  · rw [hd] at hc
    injection hc with h
    subst h
    simp [hw]

lemma isPrefixOf_append_self : ∀ (l r : List Char), l.isPrefixOf (l ++ r) = true := by
  intro l r
  induction l with
  | nil => cases r <;> rfl
  | cons a as ih => simp [List.isPrefixOf, ih]

lemma removeAllFuel_step (p : Char) (ps rest : List Char) (fuel : Nat) :
    removeAllFuel (p :: ps) (fuel + 1) ((p :: ps) ++ rest) = removeAllFuel (p :: ps) fuel rest := by
  have hpre : (p :: ps).isPrefixOf (p :: (ps ++ rest)) = true := by
    rw [← List.cons_append]
    exact isPrefixOf_append_self _ _
  simp only [List.cons_append, List.append_eq, removeAllFuel, hpre, if_true]
  congr 1
  rw [show (p :: ps).length - 1 = ps.length from by simp]
  exact List.drop_left ps rest

lemma removeAllFuel_no_C {pr : List Char} : ∀ (fuel : Nat) (l : List Char),
    (∀ a ∈ l, a ≠ 'C') → removeAllFuel ('+' :: 'C' :: pr) fuel l = l := by
  intro fuel
  induction fuel with
  | zero => intro l _; rfl
  | succ fuel ih =>
    intro l h
    rcases l with _ | ⟨c, cs⟩
    · rfl
    · have hpre : (('+' :: 'C' :: pr).isPrefixOf (c :: cs)) = false := by
        rcases cs with _ | ⟨c2, cs2⟩
        · simp [List.isPrefixOf]
        · have h2 : c2 ≠ 'C' := h c2 (by simp)
          simp [List.isPrefixOf, Ne.symm h2]
      simp only [removeAllFuel, hpre, Bool.false_eq_true, if_false]
      rw [ih cs (fun a ha => h a (List.mem_cons_of_mem _ ha))]

lemma pyRemoveAll_cclk (T : PyDateTime) :
    pyRemoveAll ("+CCLK: " ++ strftimeCCLK T) "+CCLK: " = strftimeCCLK T := by
  unfold pyRemoveAll
  rw [if_neg (by decide)]
  rw [show ("+CCLK: ").data = '+' :: 'C' :: ['C', 'L', 'K', ':', ' '] from rfl]
  rw [show ("+CCLK: " ++ strftimeCCLK T).data
      = ('+' :: 'C' :: ['C', 'L', 'K', ':', ' ']) ++ (strftimeCCLK T).data from rfl]
  rw [show (('+' :: 'C' :: ['C', 'L', 'K', ':', ' ']) ++ (strftimeCCLK T).data).length
      = (6 + (strftimeCCLK T).data.length) + 1 from by
    simp [List.length_append]
    omega]
  rw [removeAllFuel_step]
  rw [removeAllFuel_no_C _ _ (strftime_no_C T)]

lemma pySplitAux_no_occur (c : Char) : ∀ (fuel : Nat) (acc l : List Char),
    (∀ a ∈ l, a ≠ c) → pySplitAux [c] fuel acc l = [acc.reverse ++ l] := by
  intro fuel
  induction fuel with
  | zero => intro acc l _; rfl
  | succ fuel ih =>
    intro acc l h
    rcases l with _ | ⟨a, as⟩
    · simp [pySplitAux]
    · have ha : a ≠ c := h a (by simp)
      have hpre : ([c].isPrefixOf (a :: as)) = false := by
        simp [List.isPrefixOf, Ne.symm ha]
      simp only [pySplitAux, hpre, Bool.false_eq_true, if_false]
      rw [ih (a :: acc) as (fun x hx => h x (List.mem_cons_of_mem _ hx))]
      simp

lemma pySplit_cclk (T : PyDateTime) :
    pySplit (strftimeCCLK T) quoteDivider = [strftimeCCLK T] := by
  unfold pySplit
  rw [if_neg (by decide)]
  rw [show quoteDivider.data = ['\x27'] from rfl]
  rw [pySplitAux_no_occur _ _ _ _ (strftime_no_quote T)]
  simp

lemma srr_echo (T : PyDateTime) :
    sendATCmdWaitReturnResp ["+CCLK: " ++ strftimeCCLK T, "OK"] "OK"
      = (ATResp.OK, some ["+CCLK: " ++ strftimeCCLK T]) := by
  have hk : keepLine ("+CCLK: " ++ strftimeCCLK T) = true :=
    keepLine_of_head '+' (by rw [cclkLine_data]; rfl) (by decide)
  have hfl : filterLines ["+CCLK: " ++ strftimeCCLK T, "OK"]
      = ["+CCLK: " ++ strftimeCCLK T, "OK"] := by
    unfold filterLines
    rw [List.map_cons, List.map_cons, List.map_nil, cclkLine_strip T,
      show pyStrip "OK" = "OK" from by decide]
    simp [List.filter, hk, show keepLine "OK" = true from by decide]
  unfold sendATCmdWaitReturnResp
  rw [hfl]
  simp
  decide

lemma gsr_echo (T : PyDateTime) :
    getSingleResponse ["+CCLK: " ++ strftimeCCLK T, "OK"] "OK" "+CCLK: " quoteDivider 0
      = some (strftimeCCLK T) := by
  unfold getSingleResponse
  rw [srr_echo T]
  have hps : pyStartsWith ("+CCLK: " ++ strftimeCCLK T) "+CCLK: " = true := by
    unfold pyStartsWith
    rw [show ("+CCLK: " ++ strftimeCCLK T).data
        = ("+CCLK: ").data ++ (strftimeCCLK T).data from rfl]
    exact isPrefixOf_append_self _ _
  have hpr : parseReply ("+CCLK: " ++ strftimeCCLK T) "+CCLK: " quoteDivider 0
      = (true, some (strftimeCCLK T)) := by
    unfold parseReply
    simp [hps, pyRemoveAll_cclk T, pySplit_cclk T]
  simp [hpr]

/-- C8 (amended): for every valid timestamp whose year lies in 1969-2068
(the range representable by the two-digit `%y` conversion of the fixed
quoted format `"YY/MM/DD,HH:MM:SS+00"`), `setTime` succeeds against a
transport answering `OK`, and `getTime` over a transport that echoes the
exact clock string that was set (as the `+CCLK: ` payload line with
terminal `OK`) reproduces the timestamp truncated to whole seconds. -/
theorem setGetTime_roundtrip (T : PyDateTime) (hv : validDateTime T)
    (hy1 : 1969 ≤ T.year) (hy2 : T.year ≤ 2068) :
    setTime (fun _ => ["OK"]) T = true ∧
    getTime ["+CCLK: " ++ strftimeCCLK T, "OK"]
      = Except.ok (some { T with microsecond := 0 }) := by
  constructor
  · rfl
  · simp only [getTime, gsr_echo T, strptime_strftime T hv hy1 hy2]

theorem setGetTime_roundtrip_witness :
    setTime (fun _ => ["OK"]) ⟨2026, 10, 12, 1, 2, 3, 123456⟩ = true ∧
    getTime ["+CCLK: " ++ strftimeCCLK ⟨2026, 10, 12, 1, 2, 3, 123456⟩, "OK"]
      = Except.ok (some ⟨2026, 10, 12, 1, 2, 3, 0⟩) :=
  setGetTime_roundtrip ⟨2026, 10, 12, 1, 2, 3, 123456⟩ (by decide) (by decide) (by decide)

/-- C8 counterexample: the claim quantifies over *every* timestamp, but
the two-digit year of the fixed format cannot represent years outside
1969-2068: round-tripping 1850-01-01 00:00:00 through `setTime`/`getTime`
over an echoing transport yields 2050-01-01 00:00:00 (strftime `%y`
prints `50`, which strptime maps back to 2050), not the original
timestamp truncated to seconds. -/
theorem setGetTime_year_wrap_cex :
    setTime (fun _ => ["OK"]) ⟨1850, 1, 1, 0, 0, 0, 0⟩ = true ∧
    getTime ["+CCLK: " ++ strftimeCCLK ⟨1850, 1, 1, 0, 0, 0, 0⟩, "OK"]
      = Except.ok (some ⟨2050, 1, 1, 0, 0, 0, 0⟩) := by
  decide

end SIM800
